import Mathlib

/-!
Verification of the teleai_zenoh_wrapper packet codec, subscriber caches
and broker supervisor.

The definitions below are a shallow embedding of the Python sources:
  * `src/teleai_zenoh_wrapper/infoclasses/base.py` — `TimestampedBufPacket`
    (`to_bytes` / `from_bytes`) with header format `"!Q"` (8 bytes).
  * `src/teleai_zenoh_wrapper/infoclasses/infoclasses.py` — the image /
    inference-result / control / status / arm packet shapes and
    `ControlPacket.to_dict`.
  * `src/teleai_zenoh_wrapper/pubsub/pubsub.py` — the `ZenohPub` / `ZenohSub`
    / `ZenohQueueSub` / `ZenohWildCardSub` facades and their `_listen` /
    `read` cache logic.
  * `src/teleai_zenoh_wrapper/_bootstrap.py` — the zenohd supervisor.

Bytes are modelled as `List Nat` (each element a byte value).  Machine
integers are `Nat` / `Int` with explicit `% 2^w` reductions.  Python
exceptions are modelled with `Except`; an error value returned by a
delivery-callback model means the exception escaped the callback.
`np.frombuffer(..., dtype=np.uint64)` reads in the platform's native byte
order, which is little-endian on the x86-64 / aarch64 targets this package
runs on; it is embedded as a little-endian read.
-/

/-- Big-endian encoding of `v` into `w` bytes (as `struct.pack` does for
fixed-width unsigned integers; only the low `8*w` bits of `v` matter). -/
def toBytesBE (w : Nat) (v : Nat) : List Nat :=
  (List.range w).map (fun i => v / 256 ^ (w - 1 - i) % 256)

/-- Big-endian decoding of a byte list (as `struct.unpack` does). -/
def fromBytesBE (bs : List Nat) : Nat :=
  bs.foldl (fun acc b => acc * 256 + b) 0

/-- Little-endian decoding of a byte list: this is what
`np.frombuffer(data, dtype=np.uint64)` does on a little-endian host. -/
def fromBytesLE : List Nat → Nat
  | [] => 0
  | b :: rest => b + 256 * fromBytesLE rest

/-- Error taxonomy of the codec layer.  `sizeMismatch` and
`truncatedBuffer` are the two `ValueError`s raised by the packet classes;
`structRange` is the `struct.error` raised by `struct.pack` when a signed
field is out of range for its width. -/
inductive CodecError
  | sizeMismatch
  | truncatedBuffer
  | structRange
deriving DecidableEq, Repr

/-- `struct.pack("!q", v)`: 8-byte big-endian two's-complement, raising
`struct.error` when `v` is out of the i64 range. -/
def packI64BE (v : Int) : Except CodecError (List Nat) :=
  if -(2 ^ 63) ≤ v ∧ v < 2 ^ 63 then
    .ok (toBytesBE 8 (v % (2 ^ 64 : Int)).toNat)
  else
    .error .structRange

/-- `struct.pack("!i", v)`: 4-byte big-endian two's-complement, raising
`struct.error` when `v` is out of the i32 range. -/
def packI32BE (v : Int) : Except CodecError (List Nat) :=
  if -(2 ^ 31) ≤ v ∧ v < 2 ^ 31 then
    .ok (toBytesBE 4 (v % (2 ^ 32 : Int)).toNat)
  else
    .error .structRange

/-- `struct.unpack("!q", bs)`: big-endian signed 8-byte decode. -/
def unpackI64BE (bs : List Nat) : Int :=
  let u := fromBytesBE bs
  if u < 2 ^ 63 then (u : Int) else (u : Int) - 2 ^ 64

/-- `struct.unpack("!i", bs)`: big-endian signed 4-byte decode. -/
def unpackI32BE (bs : List Nat) : Int :=
  let u := fromBytesBE bs
  if u < 2 ^ 31 then (u : Int) else (u : Int) - 2 ^ 32

deriving instance DecidableEq for Except

/-- `True` exactly on `Except.ok` values. -/
def exOk {ε α : Type} : Except ε α → Bool
  | .ok _ => true
  | .error _ => false

/-- The simple packet shape of `base.py`: `timestamp_ns: np.uint64` plus an
opaque payload (the `_BUF_FIELD` bytes). -/
structure TimestampedBufPacket where
  timestamp_ns : Nat
  buf : List Nat
deriving DecidableEq, Repr

/-- `TimestampedBufPacket.to_bytes` (base.py lines 64-70): raise
`ValueError` when `len(raw) != INFOSIZE`, else
`struct.pack("!Q", timestamp_ns) + raw`. -/
def TimestampedBufPacket.to_bytes (INFOSIZE : Nat) (p : TimestampedBufPacket) :
    Except CodecError (List Nat) :=
  if p.buf.length ≠ INFOSIZE then .error .sizeMismatch
  else .ok (toBytesBE 8 p.timestamp_ns ++ p.buf)

/-- `TimestampedBufPacket.from_bytes` (base.py lines 72-79): raise
`ValueError` when `len(data) < 8 + INFOSIZE`; else the timestamp is read
with `np.frombuffer(data[:8], dtype=np.uint64)` — NATIVE (little-endian)
byte order — and the payload is `data[8 : 8 + INFOSIZE]`. -/
def TimestampedBufPacket.from_bytes (INFOSIZE : Nat) (data : List Nat) :
    Except CodecError TimestampedBufPacket :=
  if data.length < 8 + INFOSIZE then .error .truncatedBuffer
  else .ok { timestamp_ns := fromBytesLE (data.take 8)
             buf := (data.drop 8).take INFOSIZE }

/-- The extended packet shape made by `_make_infrence_result_packet`
(infoclasses.py lines 36-79): `timestamp_ns`, `inference_start_nanosec`,
`fps` and the float buffer.  Its `INFOSIZE` is `cs*dim*4 + 12`. -/
structure InferenceResultPacket where
  timestamp_ns : Nat
  inference_start_nanosec : Int
  fps : Int
  inference_result_buf : List Nat
deriving DecidableEq, Repr

/-- `_Cls.to_bytes` (infoclasses.py lines 61-65):
`payload = struct.pack("!qi", start, fps) + buf`; raise `ValueError` when
`len(payload) != INFOSIZE`; else `struct.pack("!Q", ts) + payload`.
`struct.pack` runs before the length check, so a range error surfaces
first, exactly as in the source. -/
def InferenceResultPacket.to_bytes (INFOSIZE : Nat) (p : InferenceResultPacket) :
    Except CodecError (List Nat) :=
  match packI64BE p.inference_start_nanosec, packI32BE p.fps with
  | .ok b8, .ok b4 =>
    if (b8 ++ b4 ++ p.inference_result_buf).length ≠ INFOSIZE then
      .error .sizeMismatch
    else
      .ok (toBytesBE 8 p.timestamp_ns ++ (b8 ++ b4 ++ p.inference_result_buf))
  | .error e, _ => .error e
  | .ok _, .error e => .error e

/-- `_Cls.from_bytes` (infoclasses.py lines 67-75): `expected = 8 + INFOSIZE`;
raise `ValueError` when `len(data) < expected`; the timestamp is read with
`np.frombuffer(data[:8], dtype=np.uint64)` (native little-endian), then
`struct.unpack("!qi", data[8:20])`, then `buf = data[20 : expected]`. -/
def InferenceResultPacket.from_bytes (INFOSIZE : Nat) (data : List Nat) :
    Except CodecError InferenceResultPacket :=
  if data.length < 8 + INFOSIZE then .error .truncatedBuffer
  else .ok { timestamp_ns := fromBytesLE (data.take 8)
             inference_start_nanosec := unpackI64BE ((data.drop 8).take 8)
             fps := unpackI32BE ((data.drop 16).take 4)
             inference_result_buf := (data.drop 20).take (8 + INFOSIZE - 20) }

/-- Whether a shape uses the plain `TimestampedBufPacket` layout or the
extended inference-result layout. -/
inductive ShapeKind
  | simple
  | extended
deriving DecidableEq, Repr

/-- A packet shape descriptor: class name, its `INFOSIZE` class variable
and which codec layout it uses. -/
structure Shape where
  name : String
  infosize : Nat
  kind : ShapeKind
deriving DecidableEq, Repr

/-- The catalog of shapes instantiated in `infoclasses.py`:
three image shapes, two inference-result shapes (whose `INFOSIZE` is
`cs*dim*4 + 12`), `U8Packet`, `ControlPacket` and `RoboticArmPacket`. -/
def shapeCatalog : List Shape :=
  [⟨"ImagePacket640_480_3", 640 * 480 * 3, .simple⟩,
   ⟨"ImagePacket960_540_3", 960 * 540 * 3, .simple⟩,
   ⟨"ImagePacket224_224_3", 224 * 224 * 3, .simple⟩,
   ⟨"InferenceResultPacket20_8", 20 * 8 * 4 + 12, .extended⟩,
   ⟨"InferenceResultPacket50_8", 50 * 8 * 4 + 12, .extended⟩,
   ⟨"U8Packet", 1, .simple⟩,
   ⟨"ControlPacket", 10, .simple⟩,
   ⟨"RoboticArmPacket", 32, .simple⟩]

/-- The declared payload size of a shape: the whole `INFOSIZE` for simple
shapes; for extended shapes the 12 scalar header bytes packed by
`struct.pack("!qi", ...)` are part of `INFOSIZE`, so the opaque payload is
`INFOSIZE - 12` bytes (`cs*dim*4`). -/
def Shape.payloadSize (s : Shape) : Nat :=
  match s.kind with
  | .simple => s.infosize
  | .extended => s.infosize - 12

/-- Bytes preceding the opaque payload on the wire: 8 (`"!Q"`) for simple
shapes, 20 (`"!Q"` + `"!qi"`) for extended ones. -/
def Shape.headerSize (s : Shape) : Nat :=
  match s.kind with
  | .simple => 8
  | .extended => 20

/-- A packet value for an arbitrary shape.  For a simple shape the two
scalar fields are unused. -/
structure GenPacket where
  timestamp_ns : Nat
  inference_start_nanosec : Int
  fps : Int
  buf : List Nat
deriving DecidableEq, Repr

/-- Shape-level `to_bytes`, dispatching to the codec of the shape's
layout. -/
def Shape.encode (s : Shape) (p : GenPacket) : Except CodecError (List Nat) :=
  match s.kind with
  | .simple => TimestampedBufPacket.to_bytes s.infosize ⟨p.timestamp_ns, p.buf⟩
  | .extended =>
    InferenceResultPacket.to_bytes s.infosize
      ⟨p.timestamp_ns, p.inference_start_nanosec, p.fps, p.buf⟩

/-- Shape-level `from_bytes`, dispatching to the codec of the shape's
layout. -/
def Shape.decode (s : Shape) (data : List Nat) : Except CodecError GenPacket :=
  match s.kind with
  | .simple =>
    (TimestampedBufPacket.from_bytes s.infosize data).map
      (fun q => ⟨q.timestamp_ns, 0, 0, q.buf⟩)
  | .extended =>
    (InferenceResultPacket.from_bytes s.infosize data).map
      (fun q => ⟨q.timestamp_ns, q.inference_start_nanosec, q.fps,
                 q.inference_result_buf⟩)

/-- The semantic view returned by `ControlPacket.to_dict`
(infoclasses.py lines 104-112). -/
structure ControlDict where
  emergency_stop : Nat
  step_forward : Nat
  stop : Nat
  refresh : Nat
  start : Nat
  capture : Nat
deriving DecidableEq, Repr

/-- `ControlPacket.to_dict`: indexes `control_buf[0] .. control_buf[5]`
(an out-of-range index would raise `IndexError`, hence `Option`). -/
def ControlPacket.to_dict (control_buf : List Nat) : Option ControlDict := do
  let b0 ← control_buf.get? 0
  let b1 ← control_buf.get? 1
  let b2 ← control_buf.get? 2
  let b3 ← control_buf.get? 3
  let b4 ← control_buf.get? 4
  let b5 ← control_buf.get? 5
  pure ⟨b0, b1, b2, b3, b4, b5⟩


/-- Transport-side effects performed by a facade constructor after the key
check: `zenoh.open(conf)` and `declare_publisher` / `declare_subscriber`. -/
inductive InitEffect
  | openSession
  | declareHandle
deriving DecidableEq, Repr

/-- The error raised by the key check (`AssertionError`, the repo's
"MissingKey" condition). -/
inductive InitError
  | assertionError
deriving DecidableEq, Repr

/-- Common constructor prologue of `ZenohPub`, `ZenohSub`, `ZenohQueueSub`
and `ZenohWildCardSub` (pubsub.py lines 11-25, 51-70, 103-122, 157-176):
`assert key is not None` is the first statement; `zenoh.open` and the
handle declaration run only afterwards.  The first component is the list
of transport effects actually performed. -/
def facadeInit (key : Option String) : List InitEffect × Except InitError Unit :=
  match key with
  | none => ([], .error .assertionError)
  | some _ => ([.openSession, .declareHandle], .ok ())

/-- `ZenohSub._listen` (pubsub.py lines 72-76): decode, then store into
`self._info`.  There is no `try`/`except`: when `from_bytes` raises, the
assignment is skipped and the exception escapes the callback.  Returns the
new `_info` and the exception (if any) that escaped. -/
def ZenohSub.listen (decode : List Nat → Except CodecError GenPacket)
    (info : Option GenPacket) (raw : List Nat) :
    Option GenPacket × Option CodecError :=
  match decode raw with
  | .ok pkt => (some pkt, none)
  | .error e => (info, some e)

/-- The `_info` state after a delivery (first component of `listen`). -/
def ZenohSub.deliver (decode : List Nat → Except CodecError GenPacket)
    (info : Option GenPacket) (raw : List Nat) : Option GenPacket :=
  (ZenohSub.listen decode info raw).1

/-- `ZenohSub.read` (pubsub.py lines 78-80): returns `self._info` and does
not mutate it.  Result: (returned value, state afterwards). -/
def ZenohSub.read (info : Option GenPacket) :
    Option GenPacket × Option GenPacket :=
  (info, info)

/-- `ZenohQueueSub._listen` (pubsub.py lines 124-128): decode, then
`self._q.append(pkt)` on a `deque(maxlen=1)` — the single slot is replaced.
No `try`/`except` either: a decode error escapes and the queue is left
unchanged. -/
def ZenohQueueSub.listen (decode : List Nat → Except CodecError GenPacket)
    (q : Option GenPacket) (raw : List Nat) :
    Option GenPacket × Option CodecError :=
  match decode raw with
  | .ok pkt => (some pkt, none)
  | .error e => (q, some e)

/-- The queue state after a delivery (first component of `listen`). -/
def ZenohQueueSub.deliver (decode : List Nat → Except CodecError GenPacket)
    (q : Option GenPacket) (raw : List Nat) : Option GenPacket :=
  (ZenohQueueSub.listen decode q raw).1

/-- `ZenohQueueSub.read` (pubsub.py lines 130-134): `popleft` when the
queue is non-empty, else `None`.  Result: (returned value, state
afterwards). -/
def ZenohQueueSub.read (q : Option GenPacket) :
    Option GenPacket × Option GenPacket :=
  match q with
  | some p => (some p, none)
  | none => (none, none)

/-- Insert-or-update for the wildcard cache's dict (`self._info[k] = pkt`). -/
def dictUpsert (k : String) (v : GenPacket) :
    List (String × GenPacket) → List (String × GenPacket)
  | [] => [(k, v)]
  | (k', v') :: rest =>
    if k' = k then (k, v) :: rest else (k', v') :: dictUpsert k v rest

/-- `ZenohWildCardSub._listen` (pubsub.py lines 178-185): decode, then
upsert under the last `/`-separated segment of the sample's key
expression.  No `try`/`except`: a decode error escapes and the map is left
unchanged. -/
def ZenohWildCardSub.listen (decode : List Nat → Except CodecError GenPacket)
    (info : Option (List (String × GenPacket))) (keyExpr : String)
    (raw : List Nat) :
    Option (List (String × GenPacket)) × Option CodecError :=
  match decode raw with
  | .ok pkt =>
    (some (dictUpsert ((keyExpr.splitOn "/").getLastD "") pkt (info.getD [])), none)
  | .error e => (info, some e)

/-- Whether the char list `pre` leads (is a prefix of) `l`. -/
def leadsWith : List Char → List Char → Bool
  | [], _ => true
  | _ :: _, [] => false
  | a :: as, b :: bs => a == b && leadsWith as bs

/-- Whether `needle` occurs as a contiguous run inside `hay`. -/
def charListContains (needle : List Char) : List Char → Bool
  | [] => needle.isEmpty
  | c :: rest => leadsWith needle (c :: rest) || charListContains needle rest

/-- Python's `needle in hay` substring test. -/
def strContains (hay needle : String) : Bool :=
  charListContains needle.toList hay.toList

/-- One row of the OS process table as seen through
`psutil.process_iter(["pid", "name", "cmdline"])`. -/
structure ProcEntry where
  pid : Nat
  name : String
  cmdline : List String
deriving DecidableEq, Repr

/-- Externally visible actions of the supervisor: a process-table scan, a
`subprocess.Popen([executable, "--config", path])` start command, a
`proc.terminate()` and a `proc.kill()`. -/
inductive SupEvent
  | scan
  | start (executable : String) (args : List String)
  | terminate (pid : Nat)
  | kill (pid : Nat)
deriving DecidableEq, Repr

/-- `True` on the events that act on OS process state (everything except
the read-only scan). -/
def SupEvent.isCommand : SupEvent → Bool
  | .scan => false
  | _ => true

/-- `True` exactly on start commands. -/
def SupEvent.isStart : SupEvent → Bool
  | .start _ _ => true
  | _ => false

/-- Outcome of one supervisor run, matching the branches and final log
lines of `_check_and_start_zenohd`. -/
inductive SupStatus
  | skipped
  | matched
  | started
  | recoveryFailed
deriving DecidableEq, Repr

/-- `_get_running_zenohd_process` (_bootstrap.py lines 11-26): first
process whose name or space-joined cmdline contains `"zenohd"`. -/
def getRunningZenohdProcess (table : List ProcEntry) : Option ProcEntry :=
  table.find? (fun p =>
    strContains p.name "zenohd" ||
    strContains (String.intercalate " " p.cmdline) "zenohd")

/-- `_is_zenohd_config_match` (_bootstrap.py lines 29-47): `False` on an
empty cmdline, else exact membership of `config_path` in the argument
list. -/
def isZenohdConfigMatch (p : ProcEntry) (configPath : String) : Bool :=
  match p.cmdline with
  | [] => false
  | _ => p.cmdline.contains configPath

/-- `_start_zenohd` (_bootstrap.py lines 50-79): a missing config file
only logs a warning; the command `[executable, "--config", config_path]`
is then issued via `subprocess.Popen`. -/
def startZenohd (executable configPath : String) : List SupEvent :=
  [.start executable ["--config", configPath]]

/-- `_check_and_start_zenohd` (_bootstrap.py lines 82-135).  Environment
inputs that the real code obtains from the OS are passed explicitly: the
process table at the first scan, whether `proc.wait(timeout=3)` returns
before the grace period expires (`terminatesGracefully`), and the process
table at the confirmation re-scan after a start.  Returns the event trace
and the final status. -/
def checkAndStartZenohd (executable : String)
    (expectedConfigPath : Option String) (table : List ProcEntry)
    (terminatesGracefully : Bool) (tableAfterStart : List ProcEntry) :
    List SupEvent × SupStatus :=
  match expectedConfigPath with
  | none => ([], .skipped)
  | some cp =>
    if cp = "" then ([], .skipped)
    else
      match getRunningZenohdProcess table with
      | some proc =>
        if isZenohdConfigMatch proc cp then ([SupEvent.scan], .matched)
        else
          let killEvents :=
            if terminatesGracefully then [SupEvent.terminate proc.pid]
            else [SupEvent.terminate proc.pid, SupEvent.kill proc.pid]
          let events :=
            [SupEvent.scan] ++ killEvents ++ startZenohd executable cp ++
              [SupEvent.scan]
          if (getRunningZenohdProcess tableAfterStart).isSome then
            (events, .started)
          else (events, .recoveryFailed)
      | none =>
        let events :=
          [SupEvent.scan] ++ startZenohd executable cp ++ [SupEvent.scan]
        if (getRunningZenohdProcess tableAfterStart).isSome then
          (events, .started)
        else (events, .recoveryFailed)

theorem toBytesBE_length (w v : Nat) : (toBytesBE w v).length = w := by
  simp [toBytesBE]

theorem packI64BE_ok (v : Int) (h1 : -(2 ^ 63) ≤ v) (h2 : v < 2 ^ 63) :
    packI64BE v = .ok (toBytesBE 8 (v % (2 ^ 64 : Int)).toNat) := by
  unfold packI64BE
  rw [if_pos ⟨h1, h2⟩]

theorem packI32BE_ok (v : Int) (h1 : -(2 ^ 31) ≤ v) (h2 : v < 2 ^ 31) :
    packI32BE v = .ok (toBytesBE 4 (v % (2 ^ 32 : Int)).toNat) := by
  unfold packI32BE
  rw [if_pos ⟨h1, h2⟩]

theorem simple_to_bytes_spec (IS ts : Nat) (buf : List Nat) :
    (buf.length ≠ IS →
      TimestampedBufPacket.to_bytes IS ⟨ts, buf⟩ = .error .sizeMismatch) ∧
    (buf.length = IS →
      exOk (TimestampedBufPacket.to_bytes IS ⟨ts, buf⟩) = true) := by
  constructor <;> intro h <;> simp [TimestampedBufPacket.to_bytes, h, exOk]

theorem inference_to_bytes_spec (IS : Nat) (hIS : 12 ≤ IS) (ts : Nat)
    (st fv : Int) (buf : List Nat) (h1 : -(2 ^ 63) ≤ st) (h2 : st < 2 ^ 63)
    (h3 : -(2 ^ 31) ≤ fv) (h4 : fv < 2 ^ 31) :
    (buf.length ≠ IS - 12 →
      InferenceResultPacket.to_bytes IS ⟨ts, st, fv, buf⟩ = .error .sizeMismatch) ∧
    (buf.length = IS - 12 →
      exOk (InferenceResultPacket.to_bytes IS ⟨ts, st, fv, buf⟩) = true) := by
  have hp8 := packI64BE_ok st h1 h2
  have hp4 := packI32BE_ok fv h3 h4
  simp only [InferenceResultPacket.to_bytes, hp8, hp4]
  simp only [List.length_append, toBytesBE_length]
  constructor <;> intro h
  · rw [if_pos (by omega)]
  · rw [if_neg (by omega)]
    rfl

theorem shape_decode_simple (nm : String) (N : Nat) (data : List Nat) :
    (data.length < 8 + N →
      Shape.decode ⟨nm, N, .simple⟩ data = .error .truncatedBuffer) ∧
    (8 + N ≤ data.length →
      Shape.decode ⟨nm, N, .simple⟩ data =
        .ok ⟨fromBytesLE (data.take 8), 0, 0, (data.drop 8).take N⟩) := by
  constructor <;> intro h
  · simp [Shape.decode, TimestampedBufPacket.from_bytes, h, Except.map]
  · simp [Shape.decode, TimestampedBufPacket.from_bytes, Nat.not_lt.mpr h,
      Except.map]

theorem shape_decode_extended (nm : String) (IS : Nat) (hIS : 12 ≤ IS)
    (data : List Nat) :
    (data.length < 8 + IS →
      Shape.decode ⟨nm, IS, .extended⟩ data = .error .truncatedBuffer) ∧
    (8 + IS ≤ data.length →
      Shape.decode ⟨nm, IS, .extended⟩ data =
        .ok ⟨fromBytesLE (data.take 8), unpackI64BE ((data.drop 8).take 8),
             unpackI32BE ((data.drop 16).take 4),
             (data.drop 20).take (IS - 12)⟩) := by
  have harith : 8 + IS - 20 = IS - 12 := by omega
  constructor <;> intro h
  · simp [Shape.decode, InferenceResultPacket.from_bytes, h, Except.map]
  · simp [Shape.decode, InferenceResultPacket.from_bytes, Nat.not_lt.mpr h,
      harith, Except.map]

/-- C1: the claim says `decode(encode(packet)) == packet` with the
timestamp read back in the same network byte order in which encode wrote
it.  The code writes the timestamp big-endian (`struct.pack("!Q", ...)`)
but reads it back in native little-endian order
(`np.frombuffer(..., dtype=np.uint64)`), so the round-trip byte-swaps the
timestamp: encoding `{timestamp_ns = 1, buf = [7]}` for a 1-byte shape and
decoding the result yields timestamp `2^56`, not `1`. -/
theorem C1_roundtrip_flips_timestamp_bytes :
    TimestampedBufPacket.to_bytes 1 ⟨1, [7]⟩ = .ok [0, 0, 0, 0, 0, 0, 0, 1, 7] ∧
    TimestampedBufPacket.from_bytes 1 [0, 0, 0, 0, 0, 0, 0, 1, 7] =
      .ok ⟨72057594037927936, [7]⟩ ∧
    (72057594037927936 : Nat) ≠ 1 := by decide

/-- C2 counterexample: a delivery of an empty buffer fails to decode, and
the resulting exception DOES propagate out of `_listen` (there is no
`try`/`except` in the callback), for both the latest-value and the
bounded-FIFO subscriber. -/
theorem C2_exception_escapes_callback :
    (ZenohSub.listen (Shape.decode ⟨"ControlPacket", 10, .simple⟩) none []).2 =
      some .truncatedBuffer ∧
    (ZenohQueueSub.listen (Shape.decode ⟨"ControlPacket", 10, .simple⟩) none []).2 =
      some .truncatedBuffer := by decide

/-- C2 (amended): a delivery whose buffer fails to decode leaves the cache
state of every subscriber policy unchanged, but the decode exception is
not caught — it escapes the delivery callback. -/
theorem C2_decode_failure_cache_unchanged
    (decode : List Nat → Except CodecError GenPacket)
    (info q : Option GenPacket) (winfo : Option (List (String × GenPacket)))
    (keyExpr : String) (raw : List Nat) (e : CodecError)
    (h : decode raw = .error e) :
    ZenohSub.listen decode info raw = (info, some e) ∧
    ZenohQueueSub.listen decode q raw = (q, some e) ∧
    ZenohWildCardSub.listen decode winfo keyExpr raw = (winfo, some e) := by
  simp [ZenohSub.listen, ZenohQueueSub.listen, ZenohWildCardSub.listen, h]

theorem C2_decode_failure_cache_unchanged_witness :
    ZenohSub.listen (Shape.decode ⟨"ControlPacket", 10, .simple⟩) none [] =
      (none, some .truncatedBuffer) ∧
    ZenohQueueSub.listen (Shape.decode ⟨"ControlPacket", 10, .simple⟩) none [] =
      (none, some .truncatedBuffer) ∧
    ZenohWildCardSub.listen (Shape.decode ⟨"ControlPacket", 10, .simple⟩) none
      "cameras/a" [] = (none, some .truncatedBuffer) :=
  C2_decode_failure_cache_unchanged _ none none none "cameras/a" []
    .truncatedBuffer (by decide)

/-- C3 counterexample: the claim says an empty topic key fails the
construction-time check, but `assert key is not None` lets the empty
string through, and the constructor proceeds to open the session and
declare the handle. -/
theorem C3_empty_key_passes_check :
    facadeInit (some "") = ([.openSession, .declareHandle], .ok ()) := rfl

/-- C3 (amended): constructing any publisher or subscriber facade with an
absent (`None`) topic key fails immediately with the assertion error, and
no transport effect is performed in that case; every non-`None` key —
including the empty string — passes the check. -/
theorem C3_key_check_eager (k : String) :
    facadeInit none = ([], .error .assertionError) ∧
    facadeInit (some k) = ([.openSession, .declareHandle], .ok ()) :=
  ⟨rfl, rfl⟩

/-- C9: `ControlPacket.to_dict` maps byte offsets 0–5 of the 10-byte
payload, in order, to `emergency_stop, step_forward, stop, refresh, start,
capture`; in particular `[1,0,1,0,0,0,0,0,0,0]` yields
`{emergency_stop:1, step_forward:0, stop:1, refresh:0, start:0, capture:0}`. -/
theorem C9_control_field_mapping (b0 b1 b2 b3 b4 b5 b6 b7 b8 b9 : Nat) :
    ControlPacket.to_dict [b0, b1, b2, b3, b4, b5, b6, b7, b8, b9] =
      some ⟨b0, b1, b2, b3, b4, b5⟩ ∧
    ControlPacket.to_dict [1, 0, 1, 0, 0, 0, 0, 0, 0, 0] =
      some ⟨1, 0, 1, 0, 0, 0⟩ :=
  ⟨rfl, rfl⟩

/-- C10: with a `None` or empty expected configuration path, the
supervisor returns before scanning: the event trace is empty (no scan, no
terminate, no kill, no start) and the status is the skip branch. -/
theorem C10_no_config_no_action (exe : String) (table tAfter : List ProcEntry)
    (g : Bool) :
    checkAndStartZenohd exe none table g tAfter = ([], .skipped) ∧
    checkAndStartZenohd exe (some "") table g tAfter = ([], .skipped) := by
  constructor
  · rfl
  · simp [checkAndStartZenohd]

/-- C4: for every shape in the catalog, `to_bytes` on a payload whose
length differs from the declared payload size fails with the size-mismatch
`ValueError` (nothing is truncated or padded), and succeeds whenever the
length is exactly the declared size.  The two scalar-range hypotheses
express that the extended shape's `inference_start_nanosec` and `fps` are
i64/i32 values (out-of-range values would raise `struct.error` instead). -/
theorem C4_encode_size_enforcement :
    ∀ s ∈ shapeCatalog, ∀ p : GenPacket,
    -(2 ^ 63) ≤ p.inference_start_nanosec → p.inference_start_nanosec < 2 ^ 63 →
    -(2 ^ 31) ≤ p.fps → p.fps < 2 ^ 31 →
    (p.buf.length ≠ s.payloadSize → s.encode p = .error .sizeMismatch) ∧
    (p.buf.length = s.payloadSize → exOk (s.encode p) = true) := by
  intro s hs p h1 h2 h3 h4
  fin_cases hs <;>
    simp only [Shape.encode, Shape.payloadSize] <;>
    first
      | exact simple_to_bytes_spec _ p.timestamp_ns p.buf
      | exact inference_to_bytes_spec _ (by norm_num) p.timestamp_ns
          p.inference_start_nanosec p.fps p.buf h1 h2 h3 h4

theorem C4_encode_size_enforcement_witness :
    (Shape.encode ⟨"ControlPacket", 10, .simple⟩ ⟨5, 0, 0, [1, 2, 3]⟩ =
      .error .sizeMismatch) ∧
    exOk (Shape.encode ⟨"ControlPacket", 10, .simple⟩
      ⟨5, 0, 0, [0, 1, 2, 3, 4, 5, 6, 7, 8, 9]⟩) = true :=
  ⟨(C4_encode_size_enforcement _ (by decide) ⟨5, 0, 0, [1, 2, 3]⟩ (by decide)
      (by decide) (by decide) (by decide)).1 (by decide),
   (C4_encode_size_enforcement _ (by decide) ⟨5, 0, 0, [0, 1, 2, 3, 4, 5, 6, 7, 8, 9]⟩
      (by decide) (by decide) (by decide) (by decide)).2 (by decide)⟩

/-- C5: for every shape in the catalog, `from_bytes` on a buffer shorter
than header size + declared payload size fails with the truncation
`ValueError`; on a buffer at least that long it succeeds, the decoded
payload is exactly the slice `[header_size, header_size + N)` of the
buffer (trailing excess is ignored), and its length is exactly the
declared size. -/
theorem C5_decode_truncation_and_slice :
    ∀ s ∈ shapeCatalog, ∀ data : List Nat,
    (data.length < s.headerSize + s.payloadSize →
      s.decode data = .error .truncatedBuffer) ∧
    (s.headerSize + s.payloadSize ≤ data.length →
      ∃ p : GenPacket, s.decode data = .ok p ∧
        p.buf = (data.drop s.headerSize).take s.payloadSize ∧
        p.buf.length = s.payloadSize) := by
  intro s hs data
  fin_cases hs <;>
    simp only [Shape.headerSize, Shape.payloadSize] <;>
    constructor <;> intro h
  all_goals
    first
      | exact (shape_decode_simple _ _ data).1 (by omega)
      | exact (shape_decode_extended _ _ (by norm_num) data).1 (by omega)
      | exact ⟨_, (shape_decode_simple _ _ data).2 (by omega), rfl,
          by simp [List.length_take, List.length_drop]; omega⟩
      | exact ⟨_, (shape_decode_extended _ _ (by norm_num) data).2 (by omega), rfl,
          by simp [List.length_take, List.length_drop]; omega⟩

theorem C5_decode_truncation_and_slice_witness :
    (Shape.decode ⟨"U8Packet", 1, .simple⟩ [9] = .error .truncatedBuffer) ∧
    ∃ p : GenPacket,
      Shape.decode ⟨"U8Packet", 1, .simple⟩ [0, 0, 0, 0, 0, 0, 0, 1, 7, 9] = .ok p ∧
      p.buf = ([0, 0, 0, 0, 0, 0, 0, 1, 7, 9].drop
          (Shape.headerSize ⟨"U8Packet", 1, .simple⟩)).take
          (Shape.payloadSize ⟨"U8Packet", 1, .simple⟩) ∧
      p.buf.length = Shape.payloadSize ⟨"U8Packet", 1, .simple⟩ :=
  ⟨(C5_decode_truncation_and_slice _ (by decide) [9]).1 (by decide),
   (C5_decode_truncation_and_slice _ (by decide)
      [0, 0, 0, 0, 0, 0, 0, 1, 7, 9]).2 (by decide)⟩

/-- C7: for the latest-value subscriber (`ZenohSub`), after two
successfully decoded deliveries the `read` result is the second one;
`read` returns the stored value without consuming it, so repeated reads
with no intervening delivery return the same value; before any delivery
`read` returns `None`. -/
theorem C7_latest_value_cache
    (decode : List Nat → Except CodecError GenPacket) (raw1 raw2 : List Nat)
    (d1 d2 : GenPacket) (h1 : decode raw1 = .ok d1) (h2 : decode raw2 = .ok d2) :
    (ZenohSub.read (ZenohSub.deliver decode
        (ZenohSub.deliver decode none raw1) raw2)).1 = some d2 ∧
    (∀ info : Option GenPacket, ZenohSub.read info = (info, info)) ∧
    (ZenohSub.read none).1 = none := by
  refine ⟨?_, fun info => rfl, rfl⟩
  simp [ZenohSub.deliver, ZenohSub.listen, ZenohSub.read, h1, h2]

theorem C7_latest_value_cache_witness :
    (ZenohSub.read (ZenohSub.deliver (Shape.decode ⟨"U8Packet", 1, .simple⟩)
        (ZenohSub.deliver (Shape.decode ⟨"U8Packet", 1, .simple⟩) none
          [0, 0, 0, 0, 0, 0, 0, 0, 3])
        [0, 0, 0, 0, 0, 0, 0, 0, 4])).1 =
      some ⟨0, 0, 0, [4]⟩ ∧
    (∀ info : Option GenPacket, ZenohSub.read info = (info, info)) ∧
    (ZenohSub.read none).1 = none :=
  C7_latest_value_cache (Shape.decode ⟨"U8Packet", 1, .simple⟩)
    [0, 0, 0, 0, 0, 0, 0, 0, 3] [0, 0, 0, 0, 0, 0, 0, 0, 4]
    ⟨0, 0, 0, [3]⟩ ⟨0, 0, 0, [4]⟩ (by decide) (by decide)

/-- C8: for the bounded-FIFO subscriber (`ZenohQueueSub`, a
`deque(maxlen=1)`): a delivery into the full slot replaces the unread
occupant; after deliveries D1 then D2 with no intervening read, `read`
pops D2 exactly once and the next `read` returns `None`. -/
theorem C8_bounded_fifo_cache
    (decode : List Nat → Except CodecError GenPacket) (raw1 raw2 : List Nat)
    (d1 d2 : GenPacket) (h1 : decode raw1 = .ok d1) (h2 : decode raw2 = .ok d2) :
    ZenohQueueSub.deliver decode none raw1 = some d1 ∧
    ZenohQueueSub.deliver decode (some d1) raw2 = some d2 ∧
    ZenohQueueSub.read (ZenohQueueSub.deliver decode
        (ZenohQueueSub.deliver decode none raw1) raw2) = (some d2, none) ∧
    ZenohQueueSub.read none = (none, none) := by
  refine ⟨?_, ?_, ?_, rfl⟩ <;>
    simp [ZenohQueueSub.deliver, ZenohQueueSub.listen, ZenohQueueSub.read, h1, h2]

theorem C8_bounded_fifo_cache_witness :
    ZenohQueueSub.deliver (Shape.decode ⟨"U8Packet", 1, .simple⟩) none
      [0, 0, 0, 0, 0, 0, 0, 0, 3] = some ⟨0, 0, 0, [3]⟩ ∧
    ZenohQueueSub.deliver (Shape.decode ⟨"U8Packet", 1, .simple⟩)
      (some ⟨0, 0, 0, [3]⟩) [0, 0, 0, 0, 0, 0, 0, 0, 4] = some ⟨0, 0, 0, [4]⟩ ∧
    ZenohQueueSub.read (ZenohQueueSub.deliver (Shape.decode ⟨"U8Packet", 1, .simple⟩)
        (ZenohQueueSub.deliver (Shape.decode ⟨"U8Packet", 1, .simple⟩) none
          [0, 0, 0, 0, 0, 0, 0, 0, 3])
        [0, 0, 0, 0, 0, 0, 0, 0, 4]) = (some ⟨0, 0, 0, [4]⟩, none) ∧
    ZenohQueueSub.read none = (none, none) :=
  C8_bounded_fifo_cache (Shape.decode ⟨"U8Packet", 1, .simple⟩)
    [0, 0, 0, 0, 0, 0, 0, 0, 3] [0, 0, 0, 0, 0, 0, 0, 0, 4]
    ⟨0, 0, 0, [3]⟩ ⟨0, 0, 0, [4]⟩ (by decide) (by decide)

/-- C6: one supervisor run with a non-empty expected config path.
(a) With no broker process in the table, the commands issued are exactly
one start of the form `exe --config <path>`, and if a broker process is
observed on the confirmation re-scan the run ends in the started state.
(b) With a broker process whose argument list does not contain the
expected path, the commands are exactly one terminate — followed by a
force-kill only when the grace period expires — and then one start.
(c) With a broker process whose argument list contains the expected path,
no command is issued at all. -/
theorem C6_supervisor_commands (exe cp : String) (hcp : cp ≠ "")
    (table tAfter : List ProcEntry) (g : Bool) :
    (getRunningZenohdProcess table = none →
      (checkAndStartZenohd exe (some cp) table g tAfter).1.filter
          SupEvent.isCommand = [SupEvent.start exe ["--config", cp]] ∧
      ((getRunningZenohdProcess tAfter).isSome = true →
        (checkAndStartZenohd exe (some cp) table g tAfter).2 = .started)) ∧
    (∀ proc : ProcEntry, getRunningZenohdProcess table = some proc →
      isZenohdConfigMatch proc cp = false →
      (checkAndStartZenohd exe (some cp) table g tAfter).1.filter
          SupEvent.isCommand =
        [SupEvent.terminate proc.pid] ++
          (if g then [] else [SupEvent.kill proc.pid]) ++
          [SupEvent.start exe ["--config", cp]]) ∧
    (∀ proc : ProcEntry, getRunningZenohdProcess table = some proc →
      isZenohdConfigMatch proc cp = true →
      (checkAndStartZenohd exe (some cp) table g tAfter).1.filter
          SupEvent.isCommand = []) := by
  refine ⟨fun hnone => ⟨?_, fun hAfter => ?_⟩,
          fun proc hsome hmm => ?_, fun proc hsome hm => ?_⟩
  · cases hAfter : (getRunningZenohdProcess tAfter).isSome <;>
      simp [checkAndStartZenohd, hcp, hnone, hAfter, startZenohd,
        List.filter, SupEvent.isCommand]
  · simp [checkAndStartZenohd, hcp, hnone, hAfter, startZenohd]
  · cases g <;> cases hAfter : (getRunningZenohdProcess tAfter).isSome <;>
      simp [checkAndStartZenohd, hcp, hsome, hmm, hAfter, startZenohd,
        List.filter, SupEvent.isCommand]
  · simp [checkAndStartZenohd, hcp, hsome, hm, List.filter, SupEvent.isCommand]

theorem C6_supervisor_commands_witness :
    ((checkAndStartZenohd "zenohd" (some "/etc/zenohd/router.json5") [] true
        [⟨2, "zenohd", ["zenohd", "--config", "/etc/zenohd/router.json5"]⟩]).1.filter
        SupEvent.isCommand =
      [SupEvent.start "zenohd" ["--config", "/etc/zenohd/router.json5"]] ∧
     (checkAndStartZenohd "zenohd" (some "/etc/zenohd/router.json5") [] true
        [⟨2, "zenohd", ["zenohd", "--config", "/etc/zenohd/router.json5"]⟩]).2 =
       .started) ∧
    ((checkAndStartZenohd "zenohd" (some "/etc/zenohd/router.json5")
        [⟨1, "zenohd", ["zenohd", "--config", "/tmp/other.json5"]⟩] false
        [⟨2, "zenohd", ["zenohd", "--config", "/etc/zenohd/router.json5"]⟩]).1.filter
        SupEvent.isCommand =
      [SupEvent.terminate 1] ++ (if false then [] else [SupEvent.kill 1]) ++
        [SupEvent.start "zenohd" ["--config", "/etc/zenohd/router.json5"]]) ∧
    ((checkAndStartZenohd "zenohd" (some "/etc/zenohd/router.json5")
        [⟨1, "zenohd", ["zenohd", "--config", "/etc/zenohd/router.json5"]⟩] true
        []).1.filter SupEvent.isCommand = []) :=
  ⟨⟨((C6_supervisor_commands "zenohd" "/etc/zenohd/router.json5" (by decide) []
        [⟨2, "zenohd", ["zenohd", "--config", "/etc/zenohd/router.json5"]⟩]
        true).1 (by decide)).1,
    ((C6_supervisor_commands "zenohd" "/etc/zenohd/router.json5" (by decide) []
        [⟨2, "zenohd", ["zenohd", "--config", "/etc/zenohd/router.json5"]⟩]
        true).1 (by decide)).2 (by decide)⟩,
   (C6_supervisor_commands "zenohd" "/etc/zenohd/router.json5" (by decide)
      [⟨1, "zenohd", ["zenohd", "--config", "/tmp/other.json5"]⟩]
      [⟨2, "zenohd", ["zenohd", "--config", "/etc/zenohd/router.json5"]⟩]
      false).2.1 ⟨1, "zenohd", ["zenohd", "--config", "/tmp/other.json5"]⟩
      (by decide) (by decide),
   (C6_supervisor_commands "zenohd" "/etc/zenohd/router.json5" (by decide)
      [⟨1, "zenohd", ["zenohd", "--config", "/etc/zenohd/router.json5"]⟩] []
      true).2.2 ⟨1, "zenohd", ["zenohd", "--config", "/etc/zenohd/router.json5"]⟩
      (by decide) (by decide)⟩
